import Mathlib

/-!
Verification development for the caching CLIP text-encode nodes
(`src/nodes.py`): a shallow embedding of the two caching encoder classes,
their SHA-256 key derivation, the insertion-ordered cache mapping, and the
node registration tables, together with theorems about the caching policy.
-/

/- ## SHA-256 (`hashlib.sha256(...).hexdigest()` of `get_text_hash`) -/

namespace SHA256

/-- Truncate to a 32-bit word, as every SHA-256 word operation does. -/
def w32 (n : Nat) : Nat := n % 4294967296

/-- Right rotation of a 32-bit word by `n` bits. -/
def rotr (n x : Nat) : Nat := w32 ((x >>> n) ||| (x <<< (32 - n)))

/-- The SHA-256 choice function. -/
def ch (e f g : Nat) : Nat := (e &&& f) ^^^ ((e ^^^ 4294967295) &&& g)

/-- The SHA-256 majority function. -/
def maj (a b c : Nat) : Nat := (a &&& b) ^^^ ((a &&& c) ^^^ (b &&& c))

/-- Big sigma-0 compression function. -/
def bigS0 (a : Nat) : Nat := rotr 2 a ^^^ rotr 13 a ^^^ rotr 22 a

/-- Big sigma-1 compression function. -/
def bigS1 (e : Nat) : Nat := rotr 6 e ^^^ rotr 11 e ^^^ rotr 25 e

/-- Small sigma-0 message-schedule function. -/
def smallS0 (x : Nat) : Nat := rotr 7 x ^^^ rotr 18 x ^^^ (x >>> 3)

/-- Small sigma-1 message-schedule function. -/
def smallS1 (x : Nat) : Nat := rotr 17 x ^^^ rotr 19 x ^^^ (x >>> 10)

/-- The 64 SHA-256 round constants, written in decimal. -/
def K : List Nat :=
  [1116352408, 1899447441, 3049323471, 3921009573, 961987163,
   1508970993, 2453635748, 2870763221, 3624381080, 310598401,
   607225278, 1426881987, 1925078388, 2162078206, 2614888103,
   3248222580, 3835390401, 4022224774, 264347078, 604807628,
   770255983, 1249150122, 1555081692, 1996064986, 2554220882,
   2821834349, 2952996808, 3210313671, 3336571891, 3584528711,
   113926993, 338241895, 666307205, 773529912, 1294757372,
   1396182291, 1695183700, 1986661051, 2177026350, 2456956037,
   2730485921, 2820302411, 3259730800, 3345764771, 3516065817,
   3600352804, 4094571909, 275423344, 430227734, 506948616,
   659060556, 883997877, 958139571, 1322822218, 1537002063,
   1747873779, 1955562222, 2024104815, 2227730452, 2361852424,
   2428436474, 2756734187, 3204031479, 3329325298]

/-- The eight working registers of the compression loop. -/
structure Regs where
  a : Nat
  b : Nat
  c : Nat
  d : Nat
  e : Nat
  f : Nat
  g : Nat
  h : Nat
deriving DecidableEq

/-- Initial hash value, written in decimal. -/
def initH : Regs :=
  ⟨1779033703, 3144134277, 1013904242, 2773480762,
   1359893119, 2600822924, 528734635, 1541459225⟩

/-- Parse a 64-byte block into sixteen big-endian 32-bit words. -/
def toWords (block : List Nat) : List Nat :=
  (List.range 16).map fun i =>
    block.getD (4 * i) 0 * 16777216 + block.getD (4 * i + 1) 0 * 65536 +
      block.getD (4 * i + 2) 0 * 256 + block.getD (4 * i + 3) 0

/-- Extend the 16 block words to the 64-entry message schedule (`fuel` = 48). -/
def extendW : Nat → List Nat → List Nat
  | 0, w => w
  | fuel + 1, w =>
      let n := w.length
      extendW fuel
        (w ++ [w32 (smallS1 (w.getD (n - 2) 0) + w.getD (n - 7) 0 +
                    smallS0 (w.getD (n - 15) 0) + w.getD (n - 16) 0)])

/-- One compression round, consuming a `(K constant, schedule word)` pair. -/
def round1 (r : Regs) (kw : Nat × Nat) : Regs :=
  let t1 := w32 (r.h + bigS1 r.e + ch r.e r.f r.g + kw.1 + kw.2)
  let t2 := w32 (bigS0 r.a + maj r.a r.b r.c)
  ⟨w32 (t1 + t2), r.a, r.b, r.c, w32 (r.d + t1), r.e, r.f, r.g⟩

/-- Compress one 64-byte block into the running hash state. -/
def compress (hs : Regs) (block : List Nat) : Regs :=
  let w := extendW 48 (toWords block)
  let r := (K.zip w).foldl round1 hs
  ⟨w32 (hs.a + r.a), w32 (hs.b + r.b), w32 (hs.c + r.c), w32 (hs.d + r.d),
   w32 (hs.e + r.e), w32 (hs.f + r.f), w32 (hs.g + r.g), w32 (hs.h + r.h)⟩

/-- Iterate `compress` over consecutive 64-byte blocks (`fuel` = block count). -/
def processBlocks : Nat → List Nat → Regs → Regs
  | 0, _, hs => hs
  | fuel + 1, msg, hs => processBlocks fuel (msg.drop 64) (compress hs (msg.take 64))

/-- SHA-256 padding: `0x80`, zeros, then the 64-bit big-endian bit length. -/
def pad (msg : List Nat) : List Nat :=
  let L := msg.length
  let k := (120 - (L + 1) % 64) % 64
  msg ++ [128] ++ List.replicate k 0 ++
    (List.range 8).map (fun i => ((8 * L) >>> (8 * (7 - i))) % 256)

/-- SHA-256 digest of a byte list, as eight 32-bit words. -/
def sha256 (msg : List Nat) : Regs :=
  let p := pad msg
  processBlocks (p.length / 64) p initH

/-- Lowercase hexadecimal digit character. -/
def hexChar (d : Nat) : Char := Char.ofNat (if d < 10 then 48 + d else 87 + d)

/-- Eight lowercase hex characters of a 32-bit word, most significant first. -/
def wordHex (w : Nat) : List Char :=
  (List.range 8).map fun i => hexChar ((w >>> (4 * (7 - i))) % 16)

/-- `hexdigest()`: the 64-character lowercase hex rendering of a digest. -/
def hexOfRegs (r : Regs) : String :=
  String.mk (wordHex r.a ++ wordHex r.b ++ wordHex r.c ++ wordHex r.d ++
             wordHex r.e ++ wordHex r.f ++ wordHex r.g ++ wordHex r.h)

end SHA256

/-- UTF-8 encoding of one character (Python `str.encode()` byte semantics). -/
def utf8Bytes (c : Char) : List Nat :=
  let n := c.toNat
  if n < 128 then [n]
  else if n < 2048 then [192 ||| (n >>> 6), 128 ||| (n % 64)]
  else if n < 65536 then
    [224 ||| (n >>> 12), 128 ||| ((n >>> 6) % 64), 128 ||| (n % 64)]
  else
    [240 ||| (n >>> 18), 128 ||| ((n >>> 12) % 64), 128 ||| ((n >>> 6) % 64), 128 ||| (n % 64)]

/-- UTF-8 bytes of a string, as `text.encode()` produces in `get_text_hash`. -/
def strBytes (s : String) : List Nat :=
  s.data.foldr (fun c acc => utf8Bytes c ++ acc) []

/-- `get_text_hash` (`src/nodes.py` lines 35-37 and 104-106): SHA-256 hex digest
of the UTF-8 bytes of the input text. -/
def get_text_hash (text : String) : String :=
  SHA256.hexOfRegs (SHA256.sha256 (strBytes text))

/- ## Insertion-ordered dictionary (Python `dict` semantics used as the cache) -/

/-- Python `d[k]` / `k in d`: find the value bound to `k`. -/
def lookupD {α : Type} : List (String × α) → String → Option α
  | [], _ => none
  | (k1, v1) :: t, k => if k1 = k then some v1 else lookupD t k

/-- Python `d[k] = v`: replace in place if the key is present (keeping its
position in insertion order), otherwise append at the end. -/
def dinsert {α : Type} : List (String × α) → String → α → List (String × α)
  | [], k, v => [(k, v)]
  | (k1, v1) :: t, k, v => if k1 = k then (k, v) :: t else (k1, v1) :: dinsert t k v

/-- Python `del d[k]`: remove the binding of `k`. -/
def ddel {α : Type} : List (String × α) → String → List (String × α)
  | [], _ => []
  | (k1, v1) :: t, k => if k1 = k then t else (k1, v1) :: ddel t k

/-- `first_key = next(iter(cache)); del cache[first_key]`
(`src/nodes.py` lines 84-85 and 183-184). -/
def evictOldest {α : Type} : List (String × α) → List (String × α)
  | [] => []
  | (k, v) :: t => ddel ((k, v) :: t) k

/-- The keys of the dictionary, in insertion order. -/
def keys {α : Type} (c : List (String × α)) : List String := c.map Prod.fst

/- ## The single-text node `CachingCLIPTextEncode` -/

/-- A cache entry of the single-text node (`src/nodes.py` lines 75-80); the
placeholder entry created by `__init__` has every field `None`. -/
structure Entry (κ π : Type) where
  clip_address : Option String
  text : Option String
  cond : Option κ
  pooled_output : Option π
deriving DecidableEq

/-- The external CLIP collaborator of the single-text node: its Python
identity `str(id(clip))` plus the two methods the node calls. `τ` is the
tokenization type, `κ` the `cond` tensor type, `π` the pooled-output type;
`encode_from_tokens` returns the `cond` it pops and the remaining dict. -/
structure Clip (τ κ π : Type) where
  addr : String
  tokenize : String → τ
  encode_from_tokens : τ → κ × π

/-- Mutable state of a `CachingCLIPTextEncode` node instance
(`src/nodes.py` lines 7-16). -/
structure CachingCLIPTextEncode (κ π : Type) where
  cache_limit : Nat
  cache : List (String × Entry κ π)
deriving DecidableEq

/-- `CachingCLIPTextEncode.__init__`: limit 10 and a placeholder entry under
the literal key `"hash"` with all fields `None`. -/
def CachingCLIPTextEncode.init (κ π : Type) : CachingCLIPTextEncode κ π :=
  ⟨10, [("hash", ⟨none, none, none, none⟩)]⟩

/-- What one `encode` call produces: the returned `(cond, pooled)` pair, the
node state afterwards, and how many times `clip.tokenize` and
`clip.encode_from_tokens` were invoked during the call. -/
structure CallOut (R S : Type) where
  ret : R
  st : S
  tok_calls : Nat
  enc_calls : Nat
deriving DecidableEq

/-- The returned conditioning `([[cond, pooled_output]], )` with the wrapper
list stripped; fields are `Option` because the placeholder entry's are. -/
structure EncResult (κ π : Type) where
  cond : Option κ
  pooled_output : Option π
deriving DecidableEq

/-- Key derivation of the single-text node (`src/nodes.py` lines 57-58):
`get_text_hash(text + clip_address)`. -/
def singleKey (text clip_address : String) : String :=
  get_text_hash (text ++ clip_address)

/-- The miss path of `CachingCLIPTextEncode.encode` (`src/nodes.py`
lines 69-87): tokenize, encode, insert the new entry, then evict the oldest
entry when the recorded pre-insert size reached the limit. -/
def CachingCLIPTextEncode.missPath {τ κ π : Type} (st : CachingCLIPTextEncode κ π)
    (clip : Clip τ κ π) (text text_hash clip_address : String)
    (cache_len cache_limit : Nat) :
    CallOut (EncResult κ π) (CachingCLIPTextEncode κ π) :=
  let tokens := clip.tokenize text
  let output := clip.encode_from_tokens tokens
  let cond := output.1
  let pooled := output.2
  let entry : Entry κ π := ⟨some clip_address, some text, some cond, some pooled⟩
  let st2 : CachingCLIPTextEncode κ π :=
    { st with cache := dinsert st.cache text_hash entry }
  let st3 : CachingCLIPTextEncode κ π :=
    if cache_len ≥ cache_limit then { st2 with cache := evictOldest st2.cache } else st2
  ⟨⟨some cond, some pooled⟩, st3, 1, 1⟩

/-- `CachingCLIPTextEncode.encode` (`src/nodes.py` lines 39-87). -/
def CachingCLIPTextEncode.encode {τ κ π : Type} (st : CachingCLIPTextEncode κ π)
    (clip : Clip τ κ π) (text : String) (cache_limit : Nat) :
    CallOut (EncResult κ π) (CachingCLIPTextEncode κ π) :=
  let st1 : CachingCLIPTextEncode κ π := { st with cache_limit := cache_limit }
  let cache_len := st1.cache.length
  let clip_address := clip.addr
  let text_hash := singleKey text clip_address
  match lookupD st1.cache text_hash with
  | some e =>
      if e.clip_address = some clip_address then
        ⟨⟨e.cond, e.pooled_output⟩, st1, 0, 0⟩
      else
        CachingCLIPTextEncode.missPath st1 clip text text_hash clip_address cache_len cache_limit
  | none =>
      CachingCLIPTextEncode.missPath st1 clip text text_hash clip_address cache_len cache_limit

/-- Does the lookup hit (`src/nodes.py` lines 61-64): key present and the
stored `clip_address` equal to the current one? -/
def hitB {κ π : Type} (c : List (String × Entry κ π)) (k a : String) : Bool :=
  match lookupD c k with
  | some e => decide (e.clip_address = some a)
  | none => false

/- ## The dual-text node `CachingCLIPTextEncodeFlux` -/

/-- The pooled-output dict of the Flux node after the miss path ran
`output["guidance"] = guidance` (`src/nodes.py` line 170): the encoder's
remaining output fields plus the guidance scalar. -/
structure FluxAux (π G : Type) where
  base : π
  guidance : G
deriving DecidableEq

/-- A cache entry of the Flux node (`src/nodes.py` lines 173-179). The
top-level `guidance` field is absent (`none`) when the entry is inserted and
is set only by the hit path's `self.cache[text_hash]["guidance"] = guidance`
(`src/nodes.py` line 159). -/
structure FluxEntry (κ π G : Type) where
  clip_address : Option String
  clip_l : Option String
  t5xxl : Option String
  cond : Option κ
  pooled_output : Option (FluxAux π G)
  guidance : Option G
deriving DecidableEq

/-- The external CLIP collaborator of the Flux node. `tokenize` returns a
dict; only its `"t5xxl"` slot is read off separately (`src/nodes.py`
line 166), so the dict is modelled as (other fields, t5xxl field). -/
structure FluxClip (τ υ κ π : Type) where
  addr : String
  tokenize : String → τ × υ
  encode_from_tokens : τ × υ → κ × π

/-- Mutable state of a `CachingCLIPTextEncodeFlux` node instance
(`src/nodes.py` lines 92-102). -/
structure CachingCLIPTextEncodeFlux (κ π G : Type) where
  cache_limit : Nat
  cache : List (String × FluxEntry κ π G)
deriving DecidableEq

/-- `CachingCLIPTextEncodeFlux.__init__`: limit 10 and an all-`None`
placeholder entry under the literal key `"hash"`. -/
def CachingCLIPTextEncodeFlux.init (κ π G : Type) : CachingCLIPTextEncodeFlux κ π G :=
  ⟨10, [("hash", ⟨none, none, none, none, none, none⟩)]⟩

/-- Key derivation of the Flux node (`src/nodes.py` lines 149-150):
`get_text_hash(clip_l + t5xxl + clip_address)`. -/
def fluxKey (clip_l t5xxl clip_address : String) : String :=
  get_text_hash (clip_l ++ t5xxl ++ clip_address)

/-- The miss path of `CachingCLIPTextEncodeFlux.encode` (`src/nodes.py`
lines 164-186): tokenize both texts, merge the `t5xxl` tokens, encode,
attach guidance to the output dict, insert, then evict if the recorded
pre-insert size reached the limit. -/
def CachingCLIPTextEncodeFlux.missPath {τ υ κ π G : Type}
    (st : CachingCLIPTextEncodeFlux κ π G) (clip : FluxClip τ υ κ π)
    (clip_l t5xxl : String) (guidance : G) (text_hash clip_address : String)
    (cache_len cache_limit : Nat) :
    CallOut (EncResult κ (FluxAux π G)) (CachingCLIPTextEncodeFlux κ π G) :=
  let tokens := ((clip.tokenize clip_l).1, (clip.tokenize t5xxl).2)
  let output := clip.encode_from_tokens tokens
  let cond := output.1
  let aux : FluxAux π G := ⟨output.2, guidance⟩
  let entry : FluxEntry κ π G :=
    ⟨some clip_address, some clip_l, some t5xxl, some cond, some aux, none⟩
  let st2 : CachingCLIPTextEncodeFlux κ π G :=
    { st with cache := dinsert st.cache text_hash entry }
  let st3 : CachingCLIPTextEncodeFlux κ π G :=
    if cache_len ≥ cache_limit then { st2 with cache := evictOldest st2.cache } else st2
  ⟨⟨some cond, some aux⟩, st3, 2, 1⟩

/-- `CachingCLIPTextEncodeFlux.encode` (`src/nodes.py` lines 129-186). On a
hit, line 159 writes the caller's guidance to the top-level `guidance` key of
the cache-entry dict, then lines 162 return the stored `cond` and
`pooled_output`. -/
def CachingCLIPTextEncodeFlux.encode {τ υ κ π G : Type}
    (st : CachingCLIPTextEncodeFlux κ π G) (clip : FluxClip τ υ κ π)
    (clip_l t5xxl : String) (guidance : G) (cache_limit : Nat) :
    CallOut (EncResult κ (FluxAux π G)) (CachingCLIPTextEncodeFlux κ π G) :=
  let st1 : CachingCLIPTextEncodeFlux κ π G := { st with cache_limit := cache_limit }
  let cache_len := st1.cache.length
  let clip_address := clip.addr
  let text_hash := fluxKey clip_l t5xxl clip_address
  match lookupD st1.cache text_hash with
  | some e =>
      if e.clip_address = some clip_address then
        let e2 : FluxEntry κ π G := { e with guidance := some guidance }
        let st2 : CachingCLIPTextEncodeFlux κ π G :=
          { st1 with cache := dinsert st1.cache text_hash e2 }
        ⟨⟨e2.cond, e2.pooled_output⟩, st2, 0, 0⟩
      else
        CachingCLIPTextEncodeFlux.missPath st1 clip clip_l t5xxl guidance text_hash
          clip_address cache_len cache_limit
  | none =>
      CachingCLIPTextEncodeFlux.missPath st1 clip clip_l t5xxl guidance text_hash
        clip_address cache_len cache_limit

/-- Does the Flux lookup hit (`src/nodes.py` lines 153-156)? -/
def hitBF {κ π G : Type} (c : List (String × FluxEntry κ π G)) (k a : String) : Bool :=
  match lookupD c k with
  | some e => decide (e.clip_address = some a)
  | none => false

/- ## Fallible-collaborator embedding (exception propagation, single-text) -/

/-- The single-text collaborator with fallible methods: a raised Python
exception is an `Except.error`. -/
structure ClipE (ε τ κ π : Type) where
  addr : String
  tokenize : String → Except ε τ
  encode_from_tokens : τ → Except ε (κ × π)

/-- The miss path of `CachingCLIPTextEncode.encode` with a fallible
collaborator: the cache writes (`src/nodes.py` lines 75-85) sit after both
collaborator calls (lines 70-71), so an exception leaves the cache as it
was. -/
def CachingCLIPTextEncode.missPathE {ε τ κ π : Type} (st : CachingCLIPTextEncode κ π)
    (clip : ClipE ε τ κ π) (text text_hash clip_address : String)
    (cache_len cache_limit : Nat) :
    CallOut (Except ε (EncResult κ π)) (CachingCLIPTextEncode κ π) :=
  match clip.tokenize text with
  | Except.error err => ⟨Except.error err, st, 1, 0⟩
  | Except.ok tokens =>
      match clip.encode_from_tokens tokens with
      | Except.error err => ⟨Except.error err, st, 1, 1⟩
      | Except.ok output =>
          let cond := output.1
          let pooled := output.2
          let entry : Entry κ π := ⟨some clip_address, some text, some cond, some pooled⟩
          let st2 : CachingCLIPTextEncode κ π :=
            { st with cache := dinsert st.cache text_hash entry }
          let st3 : CachingCLIPTextEncode κ π :=
            if cache_len ≥ cache_limit then { st2 with cache := evictOldest st2.cache } else st2
          ⟨Except.ok ⟨some cond, some pooled⟩, st3, 1, 1⟩

/-- `CachingCLIPTextEncode.encode` with a fallible collaborator. -/
def CachingCLIPTextEncode.encodeE {ε τ κ π : Type} (st : CachingCLIPTextEncode κ π)
    (clip : ClipE ε τ κ π) (text : String) (cache_limit : Nat) :
    CallOut (Except ε (EncResult κ π)) (CachingCLIPTextEncode κ π) :=
  let st1 : CachingCLIPTextEncode κ π := { st with cache_limit := cache_limit }
  let cache_len := st1.cache.length
  let clip_address := clip.addr
  let text_hash := singleKey text clip_address
  match lookupD st1.cache text_hash with
  | some e =>
      if e.clip_address = some clip_address then
        ⟨Except.ok ⟨e.cond, e.pooled_output⟩, st1, 0, 0⟩
      else
        CachingCLIPTextEncode.missPathE st1 clip text text_hash clip_address cache_len cache_limit
  | none =>
      CachingCLIPTextEncode.missPathE st1 clip text text_hash clip_address cache_len cache_limit

/- ## Fallible-collaborator embedding (exception propagation, Flux) -/

/-- The Flux collaborator with fallible methods. -/
structure FluxClipE (ε τ υ κ π : Type) where
  addr : String
  tokenize : String → Except ε (τ × υ)
  encode_from_tokens : τ × υ → Except ε (κ × π)

/-- The miss path of `CachingCLIPTextEncodeFlux.encode` with a fallible
collaborator: the cache writes (`src/nodes.py` lines 173-184) sit after the
collaborator calls (lines 165-168). -/
def CachingCLIPTextEncodeFlux.missPathE {ε τ υ κ π G : Type}
    (st : CachingCLIPTextEncodeFlux κ π G) (clip : FluxClipE ε τ υ κ π)
    (clip_l t5xxl : String) (guidance : G) (text_hash clip_address : String)
    (cache_len cache_limit : Nat) :
    CallOut (Except ε (EncResult κ (FluxAux π G))) (CachingCLIPTextEncodeFlux κ π G) :=
  match clip.tokenize clip_l with
  | Except.error err => ⟨Except.error err, st, 1, 0⟩
  | Except.ok tl =>
      match clip.tokenize t5xxl with
      | Except.error err => ⟨Except.error err, st, 2, 0⟩
      | Except.ok t5 =>
          match clip.encode_from_tokens (tl.1, t5.2) with
          | Except.error err => ⟨Except.error err, st, 2, 1⟩
          | Except.ok output =>
              let cond := output.1
              let aux : FluxAux π G := ⟨output.2, guidance⟩
              let entry : FluxEntry κ π G :=
                ⟨some clip_address, some clip_l, some t5xxl, some cond, some aux, none⟩
              let st2 : CachingCLIPTextEncodeFlux κ π G :=
                { st with cache := dinsert st.cache text_hash entry }
              let st3 : CachingCLIPTextEncodeFlux κ π G :=
                if cache_len ≥ cache_limit then { st2 with cache := evictOldest st2.cache } else st2
              ⟨Except.ok ⟨some cond, some aux⟩, st3, 2, 1⟩

/-- `CachingCLIPTextEncodeFlux.encode` with a fallible collaborator. -/
def CachingCLIPTextEncodeFlux.encodeE {ε τ υ κ π G : Type}
    (st : CachingCLIPTextEncodeFlux κ π G) (clip : FluxClipE ε τ υ κ π)
    (clip_l t5xxl : String) (guidance : G) (cache_limit : Nat) :
    CallOut (Except ε (EncResult κ (FluxAux π G))) (CachingCLIPTextEncodeFlux κ π G) :=
  let st1 : CachingCLIPTextEncodeFlux κ π G := { st with cache_limit := cache_limit }
  let cache_len := st1.cache.length
  let clip_address := clip.addr
  let text_hash := fluxKey clip_l t5xxl clip_address
  match lookupD st1.cache text_hash with
  | some e =>
      if e.clip_address = some clip_address then
        let e2 : FluxEntry κ π G := { e with guidance := some guidance }
        let st2 : CachingCLIPTextEncodeFlux κ π G :=
          { st1 with cache := dinsert st1.cache text_hash e2 }
        ⟨Except.ok ⟨e2.cond, e2.pooled_output⟩, st2, 0, 0⟩
      else
        CachingCLIPTextEncodeFlux.missPathE st1 clip clip_l t5xxl guidance text_hash
          clip_address cache_len cache_limit
  | none =>
      CachingCLIPTextEncodeFlux.missPathE st1 clip clip_l t5xxl guidance text_hash
        clip_address cache_len cache_limit

/- ## Repeated invocation (the host calls `encode` once per graph execution) -/

/-- Run a sequence of single-text `encode` calls, all with the same
`cache_limit`, starting from a freshly constructed node. -/
def runSingle {τ κ π : Type} (cache_limit : Nat) (calls : List (Clip τ κ π × String)) :
    CachingCLIPTextEncode κ π :=
  calls.foldl (fun st c => (CachingCLIPTextEncode.encode st c.1 c.2 cache_limit).st)
    (CachingCLIPTextEncode.init κ π)

/-- Run a sequence of Flux `encode` calls, all with the same `cache_limit`,
starting from a freshly constructed node. -/
def runFlux {τ υ κ π G : Type} (cache_limit : Nat)
    (calls : List (FluxClip τ υ κ π × String × String × G)) :
    CachingCLIPTextEncodeFlux κ π G :=
  calls.foldl
    (fun st c => (CachingCLIPTextEncodeFlux.encode st c.1 c.2.1 c.2.2.1 c.2.2.2 cache_limit).st)
    (CachingCLIPTextEncodeFlux.init κ π G)

/- ## Node registration (`src/nodes.py` lines 188-196) -/

/-- The two node classes the module defines. -/
inductive NodeClass where
  | cachingCLIPTextEncodeFlux
  | cachingCLIPTextEncode
deriving DecidableEq

/-- `NODE_CLASS_MAPPINGS` (`src/nodes.py` lines 188-191). -/
def NODE_CLASS_MAPPINGS : List (String × NodeClass) :=
  [("CachingCLIPTextEncodeFlux|ARZUMATA", NodeClass.cachingCLIPTextEncodeFlux),
   ("CachingCLIPTextEncode|ARZUMATA", NodeClass.cachingCLIPTextEncode)]

/-- The required input fields (name, declared type) of each node class's
`INPUT_TYPES` (`src/nodes.py` lines 18-26 and 108-123), in declaration
order. -/
def INPUT_TYPES_of : NodeClass → List (String × String)
  | NodeClass.cachingCLIPTextEncode =>
      [("text", "STRING"), ("clip", "CLIP"), ("cache_limit", "INT")]
  | NodeClass.cachingCLIPTextEncodeFlux =>
      [("clip", "CLIP"), ("clip_l", "STRING"), ("t5xxl", "STRING"),
       ("cache_limit", "INT"), ("guidance", "FLOAT")]


/- ## Concrete collaborator stubs (fixtures for closed evaluations) -/

/-- A concrete single-text collaborator: identity `"1"`, distinct
deterministic outputs per text. -/
def stubClip : Clip String String String :=
  ⟨"1", fun s => "T" ++ s, fun t => ("C" ++ t, "P" ++ t)⟩

/-- A second concrete single-text collaborator with a different identity. -/
def stubClip2 : Clip String String String :=
  ⟨"2", fun s => "t" ++ s, fun t => ("c" ++ t, "p" ++ t)⟩

/-- A concrete Flux collaborator: identity `"7"`, the tokenization dict
modelled as (other fields, t5xxl field). -/
def stubFluxClip : FluxClip String String String String :=
  ⟨"7", fun s => ("R" ++ s, "F" ++ s), fun t => ("C" ++ t.1, "P" ++ t.2)⟩

/-- A second concrete Flux collaborator with a different identity. -/
def stubFluxClip2 : FluxClip String String String String :=
  ⟨"8", fun s => ("r" ++ s, "f" ++ s), fun t => ("c" ++ t.1, "p" ++ t.2)⟩

/-- A single-text collaborator whose `tokenize` raises. -/
def stubClipTokErr : ClipE String String String String :=
  ⟨"1", fun _ => Except.error "tokenize boom", fun t => Except.ok ("C" ++ t, "P" ++ t)⟩

/-- A single-text collaborator whose `encode_from_tokens` raises. -/
def stubClipEncErr : ClipE String String String String :=
  ⟨"1", fun s => Except.ok ("T" ++ s), fun _ => Except.error "encode boom"⟩

/-- A Flux collaborator whose `tokenize` raises. -/
def stubFluxClipTokErr : FluxClipE String String String String String :=
  ⟨"7", fun _ => Except.error "tokenize boom", fun t => Except.ok ("C" ++ t.1, "P" ++ t.2)⟩

/-- A Flux collaborator whose `encode_from_tokens` raises. -/
def stubFluxClipEncErr : FluxClipE String String String String String :=
  ⟨"7", fun s => Except.ok ("R" ++ s, "F" ++ s), fun _ => Except.error "encode boom"⟩

/-- The entry the single-text miss path inserts for `(clip, text)`. -/
def missEntry {τ κ π : Type} (clip : Clip τ κ π) (text : String) : Entry κ π :=
  ⟨some clip.addr, some text, some (clip.encode_from_tokens (clip.tokenize text)).1,
   some (clip.encode_from_tokens (clip.tokenize text)).2⟩

/-- The entry the Flux miss path inserts for `(clip, clip_l, t5xxl, guidance)`. -/
def fluxMissEntry {τ υ κ π G : Type} (clip : FluxClip τ υ κ π)
    (clip_l t5xxl : String) (g : G) : FluxEntry κ π G :=
  ⟨some clip.addr, some clip_l, some t5xxl,
   some (clip.encode_from_tokens ((clip.tokenize clip_l).1, (clip.tokenize t5xxl).2)).1,
   some ⟨(clip.encode_from_tokens ((clip.tokenize clip_l).1, (clip.tokenize t5xxl).2)).2, g⟩,
   none⟩

/- ## Helper lemmas -/

theorem length_hexOfRegs (r : SHA256.Regs) : (SHA256.hexOfRegs r).length = 64 := by
  simp [SHA256.hexOfRegs, SHA256.wordHex, String.length]

theorem length_get_text_hash (s : String) : (get_text_hash s).length = 64 :=
  length_hexOfRegs _

theorem get_text_hash_ne_hash (s : String) : get_text_hash s ≠ "hash" := by
  intro h
  have h2 := congrArg String.length h
  rw [length_get_text_hash] at h2
  exact absurd h2 (by decide)

theorem evictOldest_eq_tail {α : Type} (c : List (String × α)) :
    evictOldest c = c.tail := by
  cases c with
  | nil => rfl
  | cons p t =>
      cases p with
      | mk k v => simp [evictOldest, ddel]

theorem dinsert_of_not_mem {α : Type} {c : List (String × α)} {k : String} (v : α)
    (h : k ∉ keys c) : dinsert c k v = c ++ [(k, v)] := by
  induction c with
  | nil => rfl
  | cons p t ih =>
      cases p with
      | mk k1 v1 =>
          simp only [keys, List.map_cons, List.mem_cons] at h
          push_neg at h
          rw [dinsert, ih (by simpa [keys] using h.2),
            if_neg (fun hh => h.1 hh.symm)]
          simp

theorem length_dinsert_le {α : Type} (c : List (String × α)) (k : String) (v : α) :
    (dinsert c k v).length ≤ c.length + 1 := by
  induction c with
  | nil => simp [dinsert]
  | cons p t ih =>
      cases p with
      | mk k1 v1 =>
          by_cases h : k1 = k
          · simp [dinsert, h]
          · simp only [dinsert, if_neg h, List.length_cons]
            omega

theorem length_dinsert_of_lookup_some {α : Type} {c : List (String × α)} {k : String}
    {e : α} (v : α) (h : lookupD c k = some e) :
    (dinsert c k v).length = c.length := by
  induction c with
  | nil => simp [lookupD] at h
  | cons p t ih =>
      cases p with
      | mk k1 v1 =>
          by_cases hk : k1 = k
          · simp [dinsert, hk]
          · simp only [lookupD, if_neg hk] at h
            simp only [dinsert, if_neg hk, List.length_cons, ih h]

/- ## Claim theorems -/

/-- C2, counterexample: the dual-text key is the hash of the plain
concatenation `clip_l + t5xxl + clip_address`, so the two distinct input
pairs `("ab", "c")` and `("a", "bc")` — identical model identity `"m"` —
yield the identical key: the claimed absence of cross-field aliasing of the
concatenated byte string fails. -/
theorem fluxKey_cross_field_aliasing :
    (("ab" : String), ("c" : String)) ≠ (("a" : String), ("bc" : String)) ∧
    fluxKey "ab" "c" "m" = fluxKey "a" "bc" "m" := by
  constructor
  · decide
  · show get_text_hash ("ab" ++ "c" ++ "m") = get_text_hash ("a" ++ "bc" ++ "m")
    exact congrArg get_text_hash (by decide)

/-- C2, amended: key derivation is a pure function of the concatenated
string — for both variants, inputs whose field concatenation (texts followed
by the model-identity token) coincides yield the identical key. Identical
inputs therefore always yield the identical key, but distinct dual-text
pairs with equal concatenation also collide deterministically. -/
theorem key_determined_by_concatenation (a b m a2 b2 m2 t ad t2 ad2 : String)
    (hf : a ++ b ++ m = a2 ++ b2 ++ m2) (hs : t ++ ad = t2 ++ ad2) :
    fluxKey a b m = fluxKey a2 b2 m2 ∧ singleKey t ad = singleKey t2 ad2 :=
  ⟨congrArg get_text_hash hf, congrArg get_text_hash hs⟩

/-- C2, witness: the amended theorem applied at the aliasing pair. -/
theorem key_determined_by_concatenation_witness :
    fluxKey "ab" "c" "m" = fluxKey "a" "bc" "m" ∧ singleKey "a" "1" = singleKey "a" "1" :=
  key_determined_by_concatenation "ab" "c" "m" "a" "bc" "m" "a" "1" "a" "1"
    (by decide) (by decide)

/-- C10: a freshly constructed node's cache is not empty — both `__init__`s
install exactly one placeholder entry under the literal key `"hash"` with all
fields `None`, so the initial size is 1; every derived key is a 64-character
SHA-256 hex digest, hence never equal to `"hash"`, so the placeholder is
never matched by a lookup nor overwritten by an insert (a fresh key appends
after it), and the first oldest-first eviction removes exactly the
placeholder. -/
theorem placeholder_entry_inert {κ π G : Type} (s k : String) (e : Entry κ π)
    (hk : k ≠ "hash") :
    (CachingCLIPTextEncode.init κ π).cache = [("hash", ⟨none, none, none, none⟩)] ∧
    (CachingCLIPTextEncode.init κ π).cache.length = 1 ∧
    (CachingCLIPTextEncodeFlux.init κ π G).cache =
      [("hash", ⟨none, none, none, none, none, none⟩)] ∧
    (CachingCLIPTextEncodeFlux.init κ π G).cache.length = 1 ∧
    (get_text_hash s).length = 64 ∧
    get_text_hash s ≠ "hash" ∧
    lookupD (CachingCLIPTextEncode.init κ π).cache k = none ∧
    dinsert (CachingCLIPTextEncode.init κ π).cache k e =
      ("hash", ⟨none, none, none, none⟩) :: [(k, e)] ∧
    evictOldest (dinsert (CachingCLIPTextEncode.init κ π).cache k e) = [(k, e)] := by
  have hne : ("hash" : String) ≠ k := fun h => hk h.symm
  refine ⟨rfl, rfl, rfl, rfl, length_get_text_hash s, get_text_hash_ne_hash s, ?_, ?_, ?_⟩
  · simp [CachingCLIPTextEncode.init, lookupD, hne]
  · simp [CachingCLIPTextEncode.init, dinsert, hne]
  · rw [evictOldest_eq_tail]
    simp [CachingCLIPTextEncode.init, dinsert, hne]

/-- C10, witness: the placeholder theorem applied at the derived key of
text `"a"` under model identity `"1"`. -/
theorem placeholder_entry_inert_witness :
    (CachingCLIPTextEncode.init String String).cache =
      [("hash", ⟨none, none, none, none⟩)] ∧
    (CachingCLIPTextEncode.init String String).cache.length = 1 ∧
    (CachingCLIPTextEncodeFlux.init String String Nat).cache =
      [("hash", ⟨none, none, none, none, none, none⟩)] ∧
    (CachingCLIPTextEncodeFlux.init String String Nat).cache.length = 1 ∧
    (get_text_hash "a1").length = 64 ∧
    get_text_hash "a1" ≠ "hash" ∧
    lookupD (CachingCLIPTextEncode.init String String).cache (singleKey "a" "1") = none ∧
    dinsert (CachingCLIPTextEncode.init String String).cache (singleKey "a" "1")
        (⟨some "1", some "a", some "CTa", some "PTa"⟩ : Entry String String) =
      ("hash", ⟨none, none, none, none⟩) :: [(singleKey "a" "1", ⟨some "1", some "a", some "CTa", some "PTa"⟩)] ∧
    evictOldest (dinsert (CachingCLIPTextEncode.init String String).cache (singleKey "a" "1")
        (⟨some "1", some "a", some "CTa", some "PTa"⟩ : Entry String String)) =
      [(singleKey "a" "1", ⟨some "1", some "a", some "CTa", some "PTa"⟩)] :=
  placeholder_entry_inert "a1" (singleKey "a" "1")
    (⟨some "1", some "a", some "CTa", some "PTa"⟩ : Entry String String)
    (get_text_hash_ne_hash ("a" ++ "1"))

theorem encode_eq_missPath {τ κ π : Type} (st : CachingCLIPTextEncode κ π)
    (clip : Clip τ κ π) (text : String) (L : Nat)
    (h : hitB st.cache (singleKey text clip.addr) clip.addr = false) :
    CachingCLIPTextEncode.encode st clip text L =
      CachingCLIPTextEncode.missPath { st with cache_limit := L } clip text
        (singleKey text clip.addr) clip.addr st.cache.length L := by
  have h2 : ∀ e : Entry κ π, lookupD st.cache (singleKey text clip.addr) = some e →
      ¬ (e.clip_address = some clip.addr) := by
    intro e hl hc
    unfold hitB at h
    rw [hl] at h
    simp [hc] at h
  unfold CachingCLIPTextEncode.encode
  cases hl : lookupD st.cache (singleKey text clip.addr) with
  | none => simp [hl]
  | some e => simp [hl, h2 e hl]

theorem encode_eq_hit {τ κ π : Type} (st : CachingCLIPTextEncode κ π)
    (clip : Clip τ κ π) (text : String) (L : Nat) (e : Entry κ π)
    (hl : lookupD st.cache (singleKey text clip.addr) = some e)
    (ha : e.clip_address = some clip.addr) :
    CachingCLIPTextEncode.encode st clip text L =
      ⟨⟨e.cond, e.pooled_output⟩, { st with cache_limit := L }, 0, 0⟩ := by
  unfold CachingCLIPTextEncode.encode
  simp [hl, ha]

theorem fluxEncode_eq_missPath {τ υ κ π G : Type} (st : CachingCLIPTextEncodeFlux κ π G)
    (clip : FluxClip τ υ κ π) (clip_l t5xxl : String) (g : G) (L : Nat)
    (h : hitBF st.cache (fluxKey clip_l t5xxl clip.addr) clip.addr = false) :
    CachingCLIPTextEncodeFlux.encode st clip clip_l t5xxl g L =
      CachingCLIPTextEncodeFlux.missPath { st with cache_limit := L } clip clip_l t5xxl g
        (fluxKey clip_l t5xxl clip.addr) clip.addr st.cache.length L := by
  have h2 : ∀ e : FluxEntry κ π G, lookupD st.cache (fluxKey clip_l t5xxl clip.addr) = some e →
      ¬ (e.clip_address = some clip.addr) := by
    intro e hl hc
    unfold hitBF at h
    rw [hl] at h
    simp [hc] at h
  unfold CachingCLIPTextEncodeFlux.encode
  cases hl : lookupD st.cache (fluxKey clip_l t5xxl clip.addr) with
  | none => simp [hl]
  | some e => simp [hl, h2 e hl]

theorem fluxEncode_eq_hit {τ υ κ π G : Type} (st : CachingCLIPTextEncodeFlux κ π G)
    (clip : FluxClip τ υ κ π) (clip_l t5xxl : String) (g : G) (L : Nat)
    (e : FluxEntry κ π G)
    (hl : lookupD st.cache (fluxKey clip_l t5xxl clip.addr) = some e)
    (ha : e.clip_address = some clip.addr) :
    CachingCLIPTextEncodeFlux.encode st clip clip_l t5xxl g L =
      ⟨⟨e.cond, e.pooled_output⟩,
        ⟨L, dinsert st.cache (fluxKey clip_l t5xxl clip.addr) { e with guidance := some g }⟩,
        0, 0⟩ := by
  unfold CachingCLIPTextEncodeFlux.encode
  simp [hl, ha]

/-- C3: on every cache miss the size is recorded before the insert
(`cache_len`, taken before any mutation); the new entry is inserted first,
and then, exactly once, if that recorded size is `≥ cache_limit`, the single
oldest entry in insertion order (the head of the mapping) is removed — i.e.
the post-call cache is the tail of the inserted mapping in that case, so the
mapping transiently held one entry more (recorded size + 1 when the key was
fresh) between insert and trim. Stated for both node variants. -/
theorem miss_insert_then_evict {τ υ κ π G : Type}
    (st : CachingCLIPTextEncode κ π) (clip : Clip τ κ π) (text : String) (L : Nat)
    (fst : CachingCLIPTextEncodeFlux κ π G) (fclip : FluxClip τ υ κ π)
    (clip_l t5xxl : String) (g : G) (Lf : Nat)
    (hmiss : hitB st.cache (singleKey text clip.addr) clip.addr = false)
    (hmissF : hitBF fst.cache (fluxKey clip_l t5xxl fclip.addr) fclip.addr = false) :
    (let k := singleKey text clip.addr
     let e : Entry κ π :=
       ⟨some clip.addr, some text, some (clip.encode_from_tokens (clip.tokenize text)).1,
        some (clip.encode_from_tokens (clip.tokenize text)).2⟩
     let ins := dinsert st.cache k e
     (CachingCLIPTextEncode.encode st clip text L).st.cache =
         (if st.cache.length ≥ L then ins.tail else ins) ∧
       (k ∉ keys st.cache → ins.length = st.cache.length + 1)) ∧
    (let kf := fluxKey clip_l t5xxl fclip.addr
     let tokens := ((fclip.tokenize clip_l).1, (fclip.tokenize t5xxl).2)
     let ef : FluxEntry κ π G :=
       ⟨some fclip.addr, some clip_l, some t5xxl, some (fclip.encode_from_tokens tokens).1,
        some ⟨(fclip.encode_from_tokens tokens).2, g⟩, none⟩
     let insf := dinsert fst.cache kf ef
     (CachingCLIPTextEncodeFlux.encode fst fclip clip_l t5xxl g Lf).st.cache =
         (if fst.cache.length ≥ Lf then insf.tail else insf) ∧
       (kf ∉ keys fst.cache → insf.length = fst.cache.length + 1)) := by
  constructor
  · rw [encode_eq_missPath st clip text L hmiss]
    unfold CachingCLIPTextEncode.missPath
    refine ⟨?_, ?_⟩
    · simp only [apply_ite (fun s : CachingCLIPTextEncode κ π => s.cache)]
      rw [evictOldest_eq_tail]
    · intro hk
      rw [dinsert_of_not_mem _ hk]
      simp
  · rw [fluxEncode_eq_missPath fst fclip clip_l t5xxl g Lf hmissF]
    unfold CachingCLIPTextEncodeFlux.missPath
    refine ⟨?_, ?_⟩
    · simp only [apply_ite (fun s : CachingCLIPTextEncodeFlux κ π G => s.cache)]
      rw [evictOldest_eq_tail]
    · intro hk
      rw [dinsert_of_not_mem _ hk]
      simp

set_option maxRecDepth 100000 in
/-- C3, witness: the insert-then-evict shape evaluated on fresh nodes with
`cache_limit = 1`, text `"a"` (and `("a", "b")` for Flux), where the
recorded size 1 triggers the eviction of the placeholder after the insert. -/
theorem miss_insert_then_evict_witness :
    (let k := singleKey "a" "1"
     let e : Entry String String :=
       ⟨some "1", some "a", some (stubClip.encode_from_tokens (stubClip.tokenize "a")).1,
        some (stubClip.encode_from_tokens (stubClip.tokenize "a")).2⟩
     let ins := dinsert (CachingCLIPTextEncode.init String String).cache k e
     (CachingCLIPTextEncode.encode (CachingCLIPTextEncode.init String String)
           stubClip "a" 1).st.cache =
         (if (CachingCLIPTextEncode.init String String).cache.length ≥ 1
          then ins.tail else ins) ∧
       (k ∉ keys (CachingCLIPTextEncode.init String String).cache →
         ins.length = (CachingCLIPTextEncode.init String String).cache.length + 1)) ∧
    (let kf := fluxKey "a" "b" "7"
     let tokens := ((stubFluxClip.tokenize "a").1, (stubFluxClip.tokenize "b").2)
     let ef : FluxEntry String String Nat :=
       ⟨some "7", some "a", some "b", some (stubFluxClip.encode_from_tokens tokens).1,
        some ⟨(stubFluxClip.encode_from_tokens tokens).2, 3⟩, none⟩
     let insf := dinsert (CachingCLIPTextEncodeFlux.init String String Nat).cache kf ef
     (CachingCLIPTextEncodeFlux.encode (CachingCLIPTextEncodeFlux.init String String Nat)
           stubFluxClip "a" "b" 3 1).st.cache =
         (if (CachingCLIPTextEncodeFlux.init String String Nat).cache.length ≥ 1
          then insf.tail else insf) ∧
       (kf ∉ keys (CachingCLIPTextEncodeFlux.init String String Nat).cache →
         insf.length = (CachingCLIPTextEncodeFlux.init String String Nat).cache.length + 1)) :=
  miss_insert_then_evict (CachingCLIPTextEncode.init String String) stubClip "a" 1
    (CachingCLIPTextEncodeFlux.init String String Nat) stubFluxClip "a" "b" 3 1
    (by decide) (by decide)

theorem singleKey_ne_hash (t a : String) : singleKey t a ≠ "hash" :=
  get_text_hash_ne_hash (t ++ a)

theorem fluxKey_ne_hash (l t5 a : String) : fluxKey l t5 a ≠ "hash" :=
  get_text_hash_ne_hash (l ++ t5 ++ a)

theorem hitB_init_false {κ π : Type} (t a : String) :
    hitB (CachingCLIPTextEncode.init κ π).cache (singleKey t a) a = false := by
  have hne : ¬ ("hash" : String) = singleKey t a := fun h => singleKey_ne_hash t a h.symm
  unfold hitB
  simp [CachingCLIPTextEncode.init, lookupD, hne]

theorem hitBF_init_false {κ π G : Type} (l t5 a : String) :
    hitBF (CachingCLIPTextEncodeFlux.init κ π G).cache (fluxKey l t5 a) a = false := by
  have hne : ¬ ("hash" : String) = fluxKey l t5 a := fun h => fluxKey_ne_hash l t5 a h.symm
  unfold hitBF
  simp [CachingCLIPTextEncodeFlux.init, lookupD, hne]

theorem encode_init_eq {τ κ π : Type} (clip : Clip τ κ π) (text : String) (L : Nat) :
    CachingCLIPTextEncode.encode (CachingCLIPTextEncode.init κ π) clip text L =
      ⟨⟨(missEntry clip text).cond, (missEntry clip text).pooled_output⟩,
       if 1 ≥ L then ⟨L, [(singleKey text clip.addr, missEntry clip text)]⟩
       else ⟨L, [("hash", ⟨none, none, none, none⟩),
                 (singleKey text clip.addr, missEntry clip text)]⟩,
       1, 1⟩ := by
  have hne : ¬ ("hash" : String) = singleKey text clip.addr :=
    fun h => singleKey_ne_hash text clip.addr h.symm
  rw [encode_eq_missPath _ _ _ _ (hitB_init_false text clip.addr)]
  unfold CachingCLIPTextEncode.missPath missEntry
  by_cases h1 : (1 : Nat) ≥ L <;>
    simp [CachingCLIPTextEncode.init, dinsert, hne, evictOldest_eq_tail, h1]

theorem fluxEncode_init_eq {τ υ κ π G : Type} (clip : FluxClip τ υ κ π)
    (clip_l t5xxl : String) (g : G) (L : Nat) :
    CachingCLIPTextEncodeFlux.encode (CachingCLIPTextEncodeFlux.init κ π G)
        clip clip_l t5xxl g L =
      ⟨⟨(fluxMissEntry clip clip_l t5xxl g).cond,
        (fluxMissEntry clip clip_l t5xxl g).pooled_output⟩,
       if 1 ≥ L then
         ⟨L, [(fluxKey clip_l t5xxl clip.addr, fluxMissEntry clip clip_l t5xxl g)]⟩
       else ⟨L, [("hash", ⟨none, none, none, none, none, none⟩),
                 (fluxKey clip_l t5xxl clip.addr, fluxMissEntry clip clip_l t5xxl g)]⟩,
       2, 1⟩ := by
  have hne : ¬ ("hash" : String) = fluxKey clip_l t5xxl clip.addr :=
    fun h => fluxKey_ne_hash clip_l t5xxl clip.addr h.symm
  rw [fluxEncode_eq_missPath _ _ _ _ _ _ (hitBF_init_false clip_l t5xxl clip.addr)]
  unfold CachingCLIPTextEncodeFlux.missPath fluxMissEntry
  by_cases h1 : (1 : Nat) ≥ L <;>
    simp [CachingCLIPTextEncodeFlux.init, dinsert, hne, evictOldest_eq_tail, h1]

/-- C4: cache-hit correctness from a freshly constructed node, for any text,
model handle and positive cache limit (and any two guidance values for the
Flux variant): the second identical call returns exactly the first call's
`(cond, pooled_output)` pair and invokes neither `tokenize` nor
`encode_from_tokens`. -/
theorem cache_hit_returns_stored {τ υ κ π G : Type}
    (clip : Clip τ κ π) (text : String) (L : Nat)
    (fclip : FluxClip τ υ κ π) (clip_l t5xxl : String) (g1 g2 : G) (Lf : Nat) :
    ((CachingCLIPTextEncode.encode
        (CachingCLIPTextEncode.encode (CachingCLIPTextEncode.init κ π) clip text L).st
        clip text L).ret =
      (CachingCLIPTextEncode.encode (CachingCLIPTextEncode.init κ π) clip text L).ret ∧
     (CachingCLIPTextEncode.encode
        (CachingCLIPTextEncode.encode (CachingCLIPTextEncode.init κ π) clip text L).st
        clip text L).tok_calls = 0 ∧
     (CachingCLIPTextEncode.encode
        (CachingCLIPTextEncode.encode (CachingCLIPTextEncode.init κ π) clip text L).st
        clip text L).enc_calls = 0) ∧
    ((CachingCLIPTextEncodeFlux.encode
        (CachingCLIPTextEncodeFlux.encode (CachingCLIPTextEncodeFlux.init κ π G)
          fclip clip_l t5xxl g1 Lf).st
        fclip clip_l t5xxl g2 Lf).ret =
      (CachingCLIPTextEncodeFlux.encode (CachingCLIPTextEncodeFlux.init κ π G)
        fclip clip_l t5xxl g1 Lf).ret ∧
     (CachingCLIPTextEncodeFlux.encode
        (CachingCLIPTextEncodeFlux.encode (CachingCLIPTextEncodeFlux.init κ π G)
          fclip clip_l t5xxl g1 Lf).st
        fclip clip_l t5xxl g2 Lf).tok_calls = 0 ∧
     (CachingCLIPTextEncodeFlux.encode
        (CachingCLIPTextEncodeFlux.encode (CachingCLIPTextEncodeFlux.init κ π G)
          fclip clip_l t5xxl g1 Lf).st
        fclip clip_l t5xxl g2 Lf).enc_calls = 0) := by
  constructor
  · rw [encode_init_eq clip text L]
    by_cases h1 : (1 : Nat) ≥ L
    · simp only [h1, if_true]
      have hl : lookupD
          ((⟨L, [(singleKey text clip.addr, missEntry clip text)]⟩ :
            CachingCLIPTextEncode κ π)).cache (singleKey text clip.addr) =
          some (missEntry clip text) := by
        simp [lookupD]
      rw [encode_eq_hit _ clip text L (missEntry clip text) hl rfl]
      exact ⟨rfl, rfl, rfl⟩
    · simp only [h1, if_false]
      have hne : ¬ ("hash" : String) = singleKey text clip.addr :=
        fun h => singleKey_ne_hash text clip.addr h.symm
      have hl : lookupD
          ((⟨L, [("hash", ⟨none, none, none, none⟩),
                 (singleKey text clip.addr, missEntry clip text)]⟩ :
            CachingCLIPTextEncode κ π)).cache (singleKey text clip.addr) =
          some (missEntry clip text) := by
        simp [lookupD, hne]
      rw [encode_eq_hit _ clip text L (missEntry clip text) hl rfl]
      exact ⟨rfl, rfl, rfl⟩
  · rw [fluxEncode_init_eq fclip clip_l t5xxl g1 Lf]
    by_cases h1 : (1 : Nat) ≥ Lf
    · simp only [h1, if_true]
      have hl : lookupD
          ((⟨Lf, [(fluxKey clip_l t5xxl fclip.addr, fluxMissEntry fclip clip_l t5xxl g1)]⟩ :
            CachingCLIPTextEncodeFlux κ π G)).cache (fluxKey clip_l t5xxl fclip.addr) =
          some (fluxMissEntry fclip clip_l t5xxl g1) := by
        simp [lookupD]
      rw [fluxEncode_eq_hit _ fclip clip_l t5xxl g2 Lf (fluxMissEntry fclip clip_l t5xxl g1) hl rfl]
      exact ⟨rfl, rfl, rfl⟩
    · simp only [h1, if_false]
      have hne : ¬ ("hash" : String) = fluxKey clip_l t5xxl fclip.addr :=
        fun h => fluxKey_ne_hash clip_l t5xxl fclip.addr h.symm
      have hl : lookupD
          ((⟨Lf, [("hash", ⟨none, none, none, none, none, none⟩),
                  (fluxKey clip_l t5xxl fclip.addr, fluxMissEntry fclip clip_l t5xxl g1)]⟩ :
            CachingCLIPTextEncodeFlux κ π G)).cache (fluxKey clip_l t5xxl fclip.addr) =
          some (fluxMissEntry fclip clip_l t5xxl g1) := by
        simp [lookupD, hne]
      rw [fluxEncode_eq_hit _ fclip clip_l t5xxl g2 Lf (fluxMissEntry fclip clip_l t5xxl g1) hl rfl]
      exact ⟨rfl, rfl, rfl⟩

/-- C5: model-identity invalidation from a freshly constructed node: with the
same text(s) but two collaborators of different identity, both calls run the
miss path (the collaborator is invoked on each call — for Flux, `tokenize`
twice and `encode_from_tokens` once per call), and the second call returns
the result freshly computed by the second collaborator, never the first
call's stored entry. This holds even under a key collision, because the
stored `clip_address` is re-checked against the current one. -/
theorem model_identity_invalidation {τ υ κ π G : Type}
    (clip1 clip2 : Clip τ κ π) (text : String) (L : Nat)
    (fclip1 fclip2 : FluxClip τ υ κ π) (clip_l t5xxl : String) (g1 g2 : G) (Lf : Nat)
    (haddr : clip1.addr ≠ clip2.addr) (haddrF : fclip1.addr ≠ fclip2.addr) :
    ((CachingCLIPTextEncode.encode (CachingCLIPTextEncode.init κ π) clip1 text L).tok_calls = 1 ∧
     (CachingCLIPTextEncode.encode (CachingCLIPTextEncode.init κ π) clip1 text L).enc_calls = 1 ∧
     (CachingCLIPTextEncode.encode
        (CachingCLIPTextEncode.encode (CachingCLIPTextEncode.init κ π) clip1 text L).st
        clip2 text L).tok_calls = 1 ∧
     (CachingCLIPTextEncode.encode
        (CachingCLIPTextEncode.encode (CachingCLIPTextEncode.init κ π) clip1 text L).st
        clip2 text L).enc_calls = 1 ∧
     (CachingCLIPTextEncode.encode
        (CachingCLIPTextEncode.encode (CachingCLIPTextEncode.init κ π) clip1 text L).st
        clip2 text L).ret =
       ⟨(missEntry clip2 text).cond, (missEntry clip2 text).pooled_output⟩) ∧
    ((CachingCLIPTextEncodeFlux.encode (CachingCLIPTextEncodeFlux.init κ π G)
        fclip1 clip_l t5xxl g1 Lf).tok_calls = 2 ∧
     (CachingCLIPTextEncodeFlux.encode (CachingCLIPTextEncodeFlux.init κ π G)
        fclip1 clip_l t5xxl g1 Lf).enc_calls = 1 ∧
     (CachingCLIPTextEncodeFlux.encode
        (CachingCLIPTextEncodeFlux.encode (CachingCLIPTextEncodeFlux.init κ π G)
          fclip1 clip_l t5xxl g1 Lf).st
        fclip2 clip_l t5xxl g2 Lf).tok_calls = 2 ∧
     (CachingCLIPTextEncodeFlux.encode
        (CachingCLIPTextEncodeFlux.encode (CachingCLIPTextEncodeFlux.init κ π G)
          fclip1 clip_l t5xxl g1 Lf).st
        fclip2 clip_l t5xxl g2 Lf).enc_calls = 1 ∧
     (CachingCLIPTextEncodeFlux.encode
        (CachingCLIPTextEncodeFlux.encode (CachingCLIPTextEncodeFlux.init κ π G)
          fclip1 clip_l t5xxl g1 Lf).st
        fclip2 clip_l t5xxl g2 Lf).ret =
       ⟨(fluxMissEntry fclip2 clip_l t5xxl g2).cond,
        (fluxMissEntry fclip2 clip_l t5xxl g2).pooled_output⟩) := by
  constructor
  · rw [encode_init_eq clip1 text L]
    refine ⟨rfl, rfl, ?_⟩
    by_cases h1 : (1 : Nat) ≥ L
    · simp only [h1, if_true]
      have hm2 : hitB
          ((⟨L, [(singleKey text clip1.addr, missEntry clip1 text)]⟩ :
            CachingCLIPTextEncode κ π)).cache (singleKey text clip2.addr) clip2.addr = false := by
        unfold hitB
        by_cases hk : singleKey text clip1.addr = singleKey text clip2.addr
        · simp [lookupD, hk, missEntry, haddr]
        · simp [lookupD, hk]
      rw [encode_eq_missPath _ clip2 text L hm2]
      exact ⟨rfl, rfl, rfl⟩
    · simp only [h1, if_false]
      have hne2 : ¬ ("hash" : String) = singleKey text clip2.addr :=
        fun h => singleKey_ne_hash text clip2.addr h.symm
      have hm2 : hitB
          ((⟨L, [("hash", ⟨none, none, none, none⟩),
                 (singleKey text clip1.addr, missEntry clip1 text)]⟩ :
            CachingCLIPTextEncode κ π)).cache (singleKey text clip2.addr) clip2.addr = false := by
        unfold hitB
        by_cases hk : singleKey text clip1.addr = singleKey text clip2.addr
        · simp [lookupD, hne2, hk, missEntry, haddr]
        · simp [lookupD, hne2, hk]
      rw [encode_eq_missPath _ clip2 text L hm2]
      exact ⟨rfl, rfl, rfl⟩
  · rw [fluxEncode_init_eq fclip1 clip_l t5xxl g1 Lf]
    refine ⟨rfl, rfl, ?_⟩
    by_cases h1 : (1 : Nat) ≥ Lf
    · simp only [h1, if_true]
      have hm2 : hitBF
          ((⟨Lf, [(fluxKey clip_l t5xxl fclip1.addr, fluxMissEntry fclip1 clip_l t5xxl g1)]⟩ :
            CachingCLIPTextEncodeFlux κ π G)).cache
          (fluxKey clip_l t5xxl fclip2.addr) fclip2.addr = false := by
        unfold hitBF
        by_cases hk : fluxKey clip_l t5xxl fclip1.addr = fluxKey clip_l t5xxl fclip2.addr
        · simp [lookupD, hk, fluxMissEntry, haddrF]
        · simp [lookupD, hk]
      rw [fluxEncode_eq_missPath _ fclip2 clip_l t5xxl g2 Lf hm2]
      exact ⟨rfl, rfl, rfl⟩
    · simp only [h1, if_false]
      have hne2 : ¬ ("hash" : String) = fluxKey clip_l t5xxl fclip2.addr :=
        fun h => fluxKey_ne_hash clip_l t5xxl fclip2.addr h.symm
      have hm2 : hitBF
          ((⟨Lf, [("hash", ⟨none, none, none, none, none, none⟩),
                  (fluxKey clip_l t5xxl fclip1.addr, fluxMissEntry fclip1 clip_l t5xxl g1)]⟩ :
            CachingCLIPTextEncodeFlux κ π G)).cache
          (fluxKey clip_l t5xxl fclip2.addr) fclip2.addr = false := by
        unfold hitBF
        by_cases hk : fluxKey clip_l t5xxl fclip1.addr = fluxKey clip_l t5xxl fclip2.addr
        · simp [lookupD, hne2, hk, fluxMissEntry, haddrF]
        · simp [lookupD, hne2, hk]
      rw [fluxEncode_eq_missPath _ fclip2 clip_l t5xxl g2 Lf hm2]
      exact ⟨rfl, rfl, rfl⟩

set_option maxRecDepth 100000 in
/-- C5, witness: the invalidation theorem evaluated for the two concrete
collaborator stubs (identities `"1"` vs `"2"`, `"7"` vs `"8"`) on text
`"a"` (and `("a", "b")` for Flux) with `cache_limit = 10`. -/
theorem model_identity_invalidation_witness :
    ((CachingCLIPTextEncode.encode (CachingCLIPTextEncode.init String String)
        stubClip "a" 10).tok_calls = 1 ∧
     (CachingCLIPTextEncode.encode (CachingCLIPTextEncode.init String String)
        stubClip "a" 10).enc_calls = 1 ∧
     (CachingCLIPTextEncode.encode
        (CachingCLIPTextEncode.encode (CachingCLIPTextEncode.init String String)
          stubClip "a" 10).st
        stubClip2 "a" 10).tok_calls = 1 ∧
     (CachingCLIPTextEncode.encode
        (CachingCLIPTextEncode.encode (CachingCLIPTextEncode.init String String)
          stubClip "a" 10).st
        stubClip2 "a" 10).enc_calls = 1 ∧
     (CachingCLIPTextEncode.encode
        (CachingCLIPTextEncode.encode (CachingCLIPTextEncode.init String String)
          stubClip "a" 10).st
        stubClip2 "a" 10).ret =
       ⟨(missEntry stubClip2 "a").cond, (missEntry stubClip2 "a").pooled_output⟩) ∧
    ((CachingCLIPTextEncodeFlux.encode (CachingCLIPTextEncodeFlux.init String String Nat)
        stubFluxClip "a" "b" 1 10).tok_calls = 2 ∧
     (CachingCLIPTextEncodeFlux.encode (CachingCLIPTextEncodeFlux.init String String Nat)
        stubFluxClip "a" "b" 1 10).enc_calls = 1 ∧
     (CachingCLIPTextEncodeFlux.encode
        (CachingCLIPTextEncodeFlux.encode (CachingCLIPTextEncodeFlux.init String String Nat)
          stubFluxClip "a" "b" 1 10).st
        stubFluxClip2 "a" "b" 2 10).tok_calls = 2 ∧
     (CachingCLIPTextEncodeFlux.encode
        (CachingCLIPTextEncodeFlux.encode (CachingCLIPTextEncodeFlux.init String String Nat)
          stubFluxClip "a" "b" 1 10).st
        stubFluxClip2 "a" "b" 2 10).enc_calls = 1 ∧
     (CachingCLIPTextEncodeFlux.encode
        (CachingCLIPTextEncodeFlux.encode (CachingCLIPTextEncodeFlux.init String String Nat)
          stubFluxClip "a" "b" 1 10).st
        stubFluxClip2 "a" "b" 2 10).ret =
       ⟨(fluxMissEntry stubFluxClip2 "a" "b" 2).cond,
        (fluxMissEntry stubFluxClip2 "a" "b" 2).pooled_output⟩) :=
  model_identity_invalidation stubClip stubClip2 "a" 10
    stubFluxClip stubFluxClip2 "a" "b" 1 2 10 (by decide) (by decide)

theorem missPath_bound {τ κ π : Type} (st : CachingCLIPTextEncode κ π)
    (clip : Clip τ κ π) (text k a : String) (L : Nat) (h : st.cache.length ≤ L) :
    (CachingCLIPTextEncode.missPath st clip text k a st.cache.length L).st.cache.length ≤ L := by
  have hle := length_dinsert_le st.cache k
    (⟨some a, some text, some (clip.encode_from_tokens (clip.tokenize text)).1,
      some (clip.encode_from_tokens (clip.tokenize text)).2⟩ : Entry κ π)
  simp only [CachingCLIPTextEncode.missPath]
  split
  · rw [evictOldest_eq_tail]
    simp only [List.length_tail]
    omega
  · next hc =>
      simp only [not_le] at hc
      exact le_trans hle (by omega)

theorem fluxMissPath_bound {τ υ κ π G : Type} (st : CachingCLIPTextEncodeFlux κ π G)
    (clip : FluxClip τ υ κ π) (clip_l t5xxl : String) (g : G) (k a : String) (L : Nat)
    (h : st.cache.length ≤ L) :
    (CachingCLIPTextEncodeFlux.missPath st clip clip_l t5xxl g k a
        st.cache.length L).st.cache.length ≤ L := by
  have hle := length_dinsert_le st.cache k
    (⟨some a, some clip_l, some t5xxl,
      some (clip.encode_from_tokens ((clip.tokenize clip_l).1, (clip.tokenize t5xxl).2)).1,
      some ⟨(clip.encode_from_tokens ((clip.tokenize clip_l).1, (clip.tokenize t5xxl).2)).2, g⟩,
      none⟩ : FluxEntry κ π G)
  simp only [CachingCLIPTextEncodeFlux.missPath]
  split
  · rw [evictOldest_eq_tail]
    simp only [List.length_tail]
    omega
  · next hc =>
      simp only [not_le] at hc
      exact le_trans hle (by omega)

theorem encode_bound {τ κ π : Type} (st : CachingCLIPTextEncode κ π)
    (clip : Clip τ κ π) (text : String) (L : Nat) (h : st.cache.length ≤ L) :
    (CachingCLIPTextEncode.encode st clip text L).st.cache.length ≤ L := by
  unfold CachingCLIPTextEncode.encode
  cases hl : lookupD st.cache (singleKey text clip.addr) with
  | some e =>
      by_cases ha : e.clip_address = some clip.addr
      · simp [hl, ha, h]
      · simp only [hl, ha, if_false]
        exact missPath_bound (⟨L, st.cache⟩ : CachingCLIPTextEncode κ π) clip text _ _ L h
  | none =>
      simp only [hl]
      exact missPath_bound (⟨L, st.cache⟩ : CachingCLIPTextEncode κ π) clip text _ _ L h

theorem fluxEncode_bound {τ υ κ π G : Type} (st : CachingCLIPTextEncodeFlux κ π G)
    (clip : FluxClip τ υ κ π) (clip_l t5xxl : String) (g : G) (L : Nat)
    (h : st.cache.length ≤ L) :
    (CachingCLIPTextEncodeFlux.encode st clip clip_l t5xxl g L).st.cache.length ≤ L := by
  unfold CachingCLIPTextEncodeFlux.encode
  cases hl : lookupD st.cache (fluxKey clip_l t5xxl clip.addr) with
  | some e =>
      by_cases ha : e.clip_address = some clip.addr
      · have hlen := length_dinsert_of_lookup_some
          ({ e with guidance := some g } : FluxEntry κ π G) hl
        simp only [hl]
        rw [if_pos ha]
        show (dinsert st.cache (fluxKey clip_l t5xxl clip.addr)
            { e with guidance := some g }).length ≤ L
        rw [hlen]
        exact h
      · simp only [hl, ha, if_false]
        exact fluxMissPath_bound (⟨L, st.cache⟩ : CachingCLIPTextEncodeFlux κ π G)
          clip clip_l t5xxl g _ _ L h
  | none =>
      simp only [hl]
      exact fluxMissPath_bound (⟨L, st.cache⟩ : CachingCLIPTextEncodeFlux κ π G)
        clip clip_l t5xxl g _ _ L h

/-- C6: bounded-size invariant: for a fixed `cache_limit = L ≥ 1` supplied on
every call, starting from a freshly constructed node, after every `encode`
call of any call sequence the cache mapping holds at most `L` entries, for
both node variants. -/
theorem cache_size_bounded {τ υ κ π G : Type} (L : Nat)
    (calls : List (Clip τ κ π × String))
    (fcalls : List (FluxClip τ υ κ π × String × String × G)) (hL : 1 ≤ L) :
    (runSingle L calls).cache.length ≤ L ∧ (runFlux L fcalls).cache.length ≤ L := by
  have hsingle : ∀ (cs : List (Clip τ κ π × String)) (st : CachingCLIPTextEncode κ π),
      st.cache.length ≤ L →
      (cs.foldl (fun s c => (CachingCLIPTextEncode.encode s c.1 c.2 L).st) st).cache.length ≤ L := by
    intro cs
    induction cs with
    | nil => intro st h; exact h
    | cons c t ih =>
        intro st h
        exact ih _ (encode_bound st c.1 c.2 L h)
  have hflux : ∀ (cs : List (FluxClip τ υ κ π × String × String × G))
      (st : CachingCLIPTextEncodeFlux κ π G),
      st.cache.length ≤ L →
      (cs.foldl (fun s c =>
        (CachingCLIPTextEncodeFlux.encode s c.1 c.2.1 c.2.2.1 c.2.2.2 L).st) st).cache.length ≤ L := by
    intro cs
    induction cs with
    | nil => intro st h; exact h
    | cons c t ih =>
        intro st h
        exact ih _ (fluxEncode_bound st c.1 c.2.1 c.2.2.1 c.2.2.2 L h)
  constructor
  · exact hsingle calls (CachingCLIPTextEncode.init κ π)
      (by simpa [CachingCLIPTextEncode.init] using hL)
  · exact hflux fcalls (CachingCLIPTextEncodeFlux.init κ π G)
      (by simpa [CachingCLIPTextEncodeFlux.init] using hL)

set_option maxRecDepth 1000000 in
/-- C6, witness: the bound theorem evaluated at `cache_limit = 2` on a
four-call single-text sequence and a one-call Flux sequence. -/
theorem cache_size_bounded_witness :
    1 ≤ 2 ∧
    ((runSingle 2 [(stubClip, "a"), (stubClip, "a"), (stubClip, "b"), (stubClip, "c")]).cache.length ≤ 2 ∧
     (runFlux 2 [(stubFluxClip, "a", "b", (1 : Nat))]).cache.length ≤ 2) :=
  ⟨by decide,
   cache_size_bounded 2 [(stubClip, "a"), (stubClip, "a"), (stubClip, "b"), (stubClip, "c")]
     [(stubFluxClip, "a", "b", (1 : Nat))] (by decide)⟩

theorem encodeE_eq_missPathE {ε τ κ π : Type} (st : CachingCLIPTextEncode κ π)
    (clip : ClipE ε τ κ π) (text : String) (L : Nat)
    (h : hitB st.cache (singleKey text clip.addr) clip.addr = false) :
    CachingCLIPTextEncode.encodeE st clip text L =
      CachingCLIPTextEncode.missPathE { st with cache_limit := L } clip text
        (singleKey text clip.addr) clip.addr st.cache.length L := by
  have h2 : ∀ e : Entry κ π, lookupD st.cache (singleKey text clip.addr) = some e →
      ¬ (e.clip_address = some clip.addr) := by
    intro e hl hc
    unfold hitB at h
    rw [hl] at h
    simp [hc] at h
  unfold CachingCLIPTextEncode.encodeE
  cases hl : lookupD st.cache (singleKey text clip.addr) with
  | none => simp [hl]
  | some e => simp [hl, h2 e hl]

theorem fluxEncodeE_eq_missPathE {ε τ υ κ π G : Type} (st : CachingCLIPTextEncodeFlux κ π G)
    (clip : FluxClipE ε τ υ κ π) (clip_l t5xxl : String) (g : G) (L : Nat)
    (h : hitBF st.cache (fluxKey clip_l t5xxl clip.addr) clip.addr = false) :
    CachingCLIPTextEncodeFlux.encodeE st clip clip_l t5xxl g L =
      CachingCLIPTextEncodeFlux.missPathE { st with cache_limit := L } clip clip_l t5xxl g
        (fluxKey clip_l t5xxl clip.addr) clip.addr st.cache.length L := by
  have h2 : ∀ e : FluxEntry κ π G, lookupD st.cache (fluxKey clip_l t5xxl clip.addr) = some e →
      ¬ (e.clip_address = some clip.addr) := by
    intro e hl hc
    unfold hitBF at h
    rw [hl] at h
    simp [hc] at h
  unfold CachingCLIPTextEncodeFlux.encodeE
  cases hl : lookupD st.cache (fluxKey clip_l t5xxl clip.addr) with
  | none => simp [hl]
  | some e => simp [hl, h2 e hl]

/-- C8: failure atomicity on a miss: whichever collaborator call raises
(`tokenize` on either text, or `encode_from_tokens`), the very same error
value is returned unmodified and the cache mapping is exactly what it was
before the call — no entry is inserted, overwritten or evicted. Stated for
both node variants over every failure point. -/
theorem collaborator_error_leaves_cache_unchanged {ε τ υ κ π G : Type}
    (st : CachingCLIPTextEncode κ π) (clip : ClipE ε τ κ π) (text : String) (L : Nat)
    (fst : CachingCLIPTextEncodeFlux κ π G) (fclip : FluxClipE ε τ υ κ π)
    (clip_l t5xxl : String) (g : G) (Lf : Nat) (err : ε)
    (hmiss : hitB st.cache (singleKey text clip.addr) clip.addr = false)
    (hmissF : hitBF fst.cache (fluxKey clip_l t5xxl fclip.addr) fclip.addr = false) :
    (clip.tokenize text = Except.error err →
       (CachingCLIPTextEncode.encodeE st clip text L).ret = Except.error err ∧
       (CachingCLIPTextEncode.encodeE st clip text L).st.cache = st.cache) ∧
    (∀ tok, clip.tokenize text = Except.ok tok →
       clip.encode_from_tokens tok = Except.error err →
       (CachingCLIPTextEncode.encodeE st clip text L).ret = Except.error err ∧
       (CachingCLIPTextEncode.encodeE st clip text L).st.cache = st.cache) ∧
    (fclip.tokenize clip_l = Except.error err →
       (CachingCLIPTextEncodeFlux.encodeE fst fclip clip_l t5xxl g Lf).ret = Except.error err ∧
       (CachingCLIPTextEncodeFlux.encodeE fst fclip clip_l t5xxl g Lf).st.cache = fst.cache) ∧
    (∀ tl, fclip.tokenize clip_l = Except.ok tl →
       fclip.tokenize t5xxl = Except.error err →
       (CachingCLIPTextEncodeFlux.encodeE fst fclip clip_l t5xxl g Lf).ret = Except.error err ∧
       (CachingCLIPTextEncodeFlux.encodeE fst fclip clip_l t5xxl g Lf).st.cache = fst.cache) ∧
    (∀ tl t5, fclip.tokenize clip_l = Except.ok tl →
       fclip.tokenize t5xxl = Except.ok t5 →
       fclip.encode_from_tokens (tl.1, t5.2) = Except.error err →
       (CachingCLIPTextEncodeFlux.encodeE fst fclip clip_l t5xxl g Lf).ret = Except.error err ∧
       (CachingCLIPTextEncodeFlux.encodeE fst fclip clip_l t5xxl g Lf).st.cache = fst.cache) := by
  rw [encodeE_eq_missPathE st clip text L hmiss,
      fluxEncodeE_eq_missPathE fst fclip clip_l t5xxl g Lf hmissF]
  refine ⟨?_, ?_, ?_, ?_, ?_⟩
  · intro htok
    unfold CachingCLIPTextEncode.missPathE
    simp only [htok]
    exact ⟨trivial, trivial⟩
  · intro tok htok henc
    unfold CachingCLIPTextEncode.missPathE
    simp only [htok, henc]
    exact ⟨trivial, trivial⟩
  · intro htok
    unfold CachingCLIPTextEncodeFlux.missPathE
    simp only [htok]
    exact ⟨trivial, trivial⟩
  · intro tl htl ht5
    unfold CachingCLIPTextEncodeFlux.missPathE
    simp only [htl, ht5]
    exact ⟨trivial, trivial⟩
  · intro tl t5 htl ht5 henc
    unfold CachingCLIPTextEncodeFlux.missPathE
    simp only [htl, ht5, henc]
    exact ⟨trivial, trivial⟩

set_option maxRecDepth 100000 in
/-- C8, witness: the atomicity theorem applied to fresh nodes with the
concrete raising collaborators (`tokenize` raising `"tokenize boom"`). -/
theorem collaborator_error_leaves_cache_unchanged_witness :
    (stubClipTokErr.tokenize "a" = Except.error "tokenize boom" →
       (CachingCLIPTextEncode.encodeE (CachingCLIPTextEncode.init String String)
          stubClipTokErr "a" 10).ret = Except.error "tokenize boom" ∧
       (CachingCLIPTextEncode.encodeE (CachingCLIPTextEncode.init String String)
          stubClipTokErr "a" 10).st.cache = (CachingCLIPTextEncode.init String String).cache) ∧
    (∀ tok, stubClipTokErr.tokenize "a" = Except.ok tok →
       stubClipTokErr.encode_from_tokens tok = Except.error "tokenize boom" →
       (CachingCLIPTextEncode.encodeE (CachingCLIPTextEncode.init String String)
          stubClipTokErr "a" 10).ret = Except.error "tokenize boom" ∧
       (CachingCLIPTextEncode.encodeE (CachingCLIPTextEncode.init String String)
          stubClipTokErr "a" 10).st.cache = (CachingCLIPTextEncode.init String String).cache) ∧
    (stubFluxClipTokErr.tokenize "a" = Except.error "tokenize boom" →
       (CachingCLIPTextEncodeFlux.encodeE (CachingCLIPTextEncodeFlux.init String String Nat)
          stubFluxClipTokErr "a" "b" 1 10).ret = Except.error "tokenize boom" ∧
       (CachingCLIPTextEncodeFlux.encodeE (CachingCLIPTextEncodeFlux.init String String Nat)
          stubFluxClipTokErr "a" "b" 1 10).st.cache =
         (CachingCLIPTextEncodeFlux.init String String Nat).cache) ∧
    (∀ tl, stubFluxClipTokErr.tokenize "a" = Except.ok tl →
       stubFluxClipTokErr.tokenize "b" = Except.error "tokenize boom" →
       (CachingCLIPTextEncodeFlux.encodeE (CachingCLIPTextEncodeFlux.init String String Nat)
          stubFluxClipTokErr "a" "b" 1 10).ret = Except.error "tokenize boom" ∧
       (CachingCLIPTextEncodeFlux.encodeE (CachingCLIPTextEncodeFlux.init String String Nat)
          stubFluxClipTokErr "a" "b" 1 10).st.cache =
         (CachingCLIPTextEncodeFlux.init String String Nat).cache) ∧
    (∀ tl t5, stubFluxClipTokErr.tokenize "a" = Except.ok tl →
       stubFluxClipTokErr.tokenize "b" = Except.ok t5 →
       stubFluxClipTokErr.encode_from_tokens (tl.1, t5.2) = Except.error "tokenize boom" →
       (CachingCLIPTextEncodeFlux.encodeE (CachingCLIPTextEncodeFlux.init String String Nat)
          stubFluxClipTokErr "a" "b" 1 10).ret = Except.error "tokenize boom" ∧
       (CachingCLIPTextEncodeFlux.encodeE (CachingCLIPTextEncodeFlux.init String String Nat)
          stubFluxClipTokErr "a" "b" 1 10).st.cache =
         (CachingCLIPTextEncodeFlux.init String String Nat).cache) :=
  collaborator_error_leaves_cache_unchanged (CachingCLIPTextEncode.init String String)
    stubClipTokErr "a" 10 (CachingCLIPTextEncodeFlux.init String String Nat)
    stubFluxClipTokErr "a" "b" 1 10 "tokenize boom" (by decide) (by decide)

set_option maxRecDepth 1000000 in
/-- C7, counterexample: on a fresh single-text node with `cache_limit = 2`,
after the first call `encode("a", model1)` the cache mapping holds 2 entries
— the constructor's placeholder plus the new entry — not 1 as the claim
states. -/
theorem trace_first_call_cache_size_two :
    (CachingCLIPTextEncode.encode (CachingCLIPTextEncode.init String String)
        stubClip "a" 2).st.cache.length = 2 ∧
    ¬ ((CachingCLIPTextEncode.encode (CachingCLIPTextEncode.init String String)
        stubClip "a" 2).st.cache.length = 1) := by
  decide

set_option maxRecDepth 1000000 in
/-- C7, amended: on a fresh single-text node with `cache_limit = 2`, the
sequence encode("a"), encode("a"), encode("b"), encode("c") under one model
gives: miss with one collaborator invocation and cache size 2 (placeholder
plus entry); hit with no further invocation; miss (two total) with size 2
(the placeholder was evicted); miss (three total) with the oldest remaining
entry — the one for "a" — evicted, leaving exactly the entries for "b" and
"c". -/
theorem end_to_end_trace :
    (let o1 := CachingCLIPTextEncode.encode (CachingCLIPTextEncode.init String String)
       stubClip "a" 2
     let o2 := CachingCLIPTextEncode.encode o1.st stubClip "a" 2
     let o3 := CachingCLIPTextEncode.encode o2.st stubClip "b" 2
     let o4 := CachingCLIPTextEncode.encode o3.st stubClip "c" 2
     o1.tok_calls = 1 ∧ o1.enc_calls = 1 ∧ o1.st.cache.length = 2 ∧
     o2.tok_calls = 0 ∧ o2.enc_calls = 0 ∧ o1.enc_calls + o2.enc_calls = 1 ∧
     o2.ret = o1.ret ∧
     o3.tok_calls = 1 ∧ o3.enc_calls = 1 ∧
     o1.enc_calls + o2.enc_calls + o3.enc_calls = 2 ∧ o3.st.cache.length = 2 ∧
     o4.enc_calls = 1 ∧
     o1.enc_calls + o2.enc_calls + o3.enc_calls + o4.enc_calls = 3 ∧
     o4.st.cache.length = 2 ∧
     lookupD o4.st.cache (singleKey "a" "1") = none ∧
     keys o4.st.cache = [singleKey "b" "1", singleKey "c" "1"]) := by
  decide

set_option maxRecDepth 1000000 in
/-- C1: the guidance-mutation bug on a Flux hit, evaluated at a concrete
input. Two calls with identical `(clip_l, t5xxl, clip)` and guidance 1 then
2: the second call invokes no collaborator method (the hit half of the claim
holds), but the `pooled_output` it returns still carries guidance 1 — the
hit path writes the caller's guidance 2 to a stray top-level `guidance` key
of the cache-entry dict (`src/nodes.py` line 159), which is never read, not
to the returned auxiliary output as the code's own comment intends. -/
theorem flux_guidance_hit_returns_stale :
    (let p1 := CachingCLIPTextEncodeFlux.encode
       (CachingCLIPTextEncodeFlux.init String String Nat) stubFluxClip "a" "b" 1 10
     let p2 := CachingCLIPTextEncodeFlux.encode p1.st stubFluxClip "a" "b" 2 10
     p2.tok_calls = 0 ∧ p2.enc_calls = 0 ∧
     p2.ret.pooled_output.map FluxAux.guidance = some 1 ∧
     ¬ (p2.ret.pooled_output.map FluxAux.guidance = some 2) ∧
     (lookupD p2.st.cache (fluxKey "a" "b" "7")).map FluxEntry.guidance = some (some 2)) := by
  decide

/-- C9, counterexample: the node registration mapping exposes exactly two
classes — the two hashed caching variants — and each of them declares a
`cache_limit` input; no third simple dual-text variant without a cache-limit
field exists in the module. -/
theorem registration_has_no_simple_variant :
    NODE_CLASS_MAPPINGS.length = 2 ∧
    NODE_CLASS_MAPPINGS.map Prod.snd =
      [NodeClass.cachingCLIPTextEncodeFlux, NodeClass.cachingCLIPTextEncode] ∧
    NODE_CLASS_MAPPINGS.all
      (fun p => (INPUT_TYPES_of p.2).any (fun f => f.1 == "cache_limit")) = true := by
  decide

/-- C9, amended: the registration mapping exposes exactly the two hashed
caching variants, whose declared inputs are the single-text node's
`text, clip, cache_limit` and the dual-text node's
`clip, clip_l, t5xxl, cache_limit, guidance` — both carry a cache-limit
field, and no simple no-hash variant is registered. -/
theorem registration_exactly_two_hashed_variants :
    NODE_CLASS_MAPPINGS =
      [("CachingCLIPTextEncodeFlux|ARZUMATA", NodeClass.cachingCLIPTextEncodeFlux),
       ("CachingCLIPTextEncode|ARZUMATA", NodeClass.cachingCLIPTextEncode)] ∧
    INPUT_TYPES_of NodeClass.cachingCLIPTextEncode =
      [("text", "STRING"), ("clip", "CLIP"), ("cache_limit", "INT")] ∧
    INPUT_TYPES_of NodeClass.cachingCLIPTextEncodeFlux =
      [("clip", "CLIP"), ("clip_l", "STRING"), ("t5xxl", "STRING"),
       ("cache_limit", "INT"), ("guidance", "FLOAT")] ∧
    (NODE_CLASS_MAPPINGS.map Prod.snd).all
      (fun n => (INPUT_TYPES_of n).any (fun f => f.1 == "cache_limit")) = true := by
  refine ⟨rfl, rfl, rfl, ?_⟩
  decide
